import Mathlib

/-!
# Verification of the SAFECode-Web false-positive suppression engine

Shallow embedding of `backend/app/suppression.py` (and the gate defaults of
`backend/app/config.py`) together with theorems about the suppression policy.

Embedding conventions:
* Python dict-shaped findings become the `Finding` structure; a `.get` with a
  default becomes `Option.getD`.
* Python floats become `ℚ` (written with `mkRat n 100`).  Every numeric
  comparison performed by the module compares short decimal literals that are
  at least `0.01` apart or syntactically identical, so IEEE-754 rounding can
  never change the outcome of a comparison and the rational model is exact.
* Fallible Python code returns `Except PyErr α`.  The only exception reachable
  in this module is `AttributeError`: the concrete rule classes invoke helper
  methods (`self._get_line`, `self._get_prev_lines`, `self._get_next_lines`,
  `self._has_literal_format`, `self._has_explicit_size`,
  `self._has_constant_path`) that are not defined on `SuppressionRule` or any
  rule class — the window helpers exist only on `SuppressionEngine`, and the
  `_has_*` helpers exist nowhere in the repository — so the attribute lookup
  raises.  `SuppressionEngine.apply_suppression` contains no `try`/`except`,
  hence such an error propagates to its caller.
* String primitives (`str.split`, `str.startswith`, `re.search` for the few
  patterns that are actually reachable) are modelled by executable functions
  on `List Char`.
-/

/-- A Python exception escaping the embedded code.  The only exception any
reachable path of `suppression.py` can raise is `AttributeError` (see the
module comment). -/
inductive PyErr where
  | attributeError
deriving DecidableEq

deriving instance DecidableEq for Except

/-- Result type of embedded fallible Python code. -/
abbrev PyRes (α : Type) := Except PyErr α

/-! ## Python string and list primitives -/

/-- Helper for `pySplit`: accumulates the current chunk (reversed). -/
def pySplitAux (sep : Char) : List Char → List Char → List (List Char)
  | [], acc => [acc.reverse]
  | c :: cs, acc =>
    if c = sep then acc.reverse :: pySplitAux sep cs []
    else pySplitAux sep cs (c :: acc)

/-- Python `s.split(sep)` for a one-character separator `sep`: splits on every
occurrence, keeping empty chunks (`"".split('\n') == [""]`,
`"a\n".split('\n') == ["a", ""]`). -/
def pySplit (sep : Char) (s : String) : List String :=
  (pySplitAux sep s.toList []).map (fun l => String.mk l)

/-- `charsStartWith p s` is true when `p` is an initial segment of `s`. -/
def charsStartWith : List Char → List Char → Bool
  | [], _ => true
  | _ :: _, [] => false
  | p :: ps, c :: cs => p = c && charsStartWith ps cs

/-- Python `s.startswith(p)`. -/
def pyStartsWith (s p : String) : Bool :=
  charsStartWith p.toList s.toList

/-- Python slice-index normalisation for a list of length `len`: negative
indices count from the end (clamped below at `0`), non-negative indices are
clamped above at `len`. -/
def pyIndex (i : Int) (len : Nat) : Nat :=
  if i < 0 then (i + len).toNat else min i.toNat len

/-- Python `l[start:stop]` (step 1). -/
def pySlice {α : Type} (l : List α) (start stop : Int) : List α :=
  (l.take (pyIndex stop l.length)).drop (pyIndex start l.length)

/-- Python `dict.get(key, default)` for a literal dict with distinct keys,
modelled as an association list. -/
def dictGet (d : List (String × ℚ)) (k : String) (dflt : ℚ) : ℚ :=
  match d with
  | [] => dflt
  | p :: rest => if k = p.1 then p.2 else dictGet rest k dflt

/-- Python `\s` whitespace class (`[ \t\n\r\f\v]`). -/
def pyIsSpace (c : Char) : Bool :=
  c = ' ' || c = '\t' || c = '\n' || c = '\r' || c = '\x0b' || c = '\x0c'

/-- Drops the longest whitespace run at the head (the greedy `\s*`). -/
def dropWhileSpace : List Char → List Char
  | [] => []
  | c :: cs => if pyIsSpace c then dropWhileSpace cs else c :: cs

/-- Matches a regex of the shape `lit\s*\(` anchored at the head of `s`:
the literal `lit`, then any whitespace, then `(`. -/
def litWsParenHere (lit : List Char) (s : List Char) : Bool :=
  if charsStartWith lit s then
    match dropWhileSpace (s.drop lit.length) with
    | '(' :: _ => true
    | _ => false
  else false

/-- `searchAnywhere p s` is true when the head-anchored matcher `p` fires at
some suffix of `s` — the search semantics of `re.search`. -/
def searchAnywhere (p : List Char → Bool) : List Char → Bool
  | [] => p []
  | c :: cs => p (c :: cs) || searchAnywhere p cs

/-- Python `re.search(lit + r'\s*\(', code) is not None` for a literal `lit`
containing no metacharacters. -/
def reSearchLitWsParen (lit : String) (code : String) : Bool :=
  searchAnywhere (litWsParenHere lit.toList) code.toList

/-- Python `re.search(lit, code) is not None` for a pattern that is a plain
literal without metacharacters. -/
def reSearchLit (lit : String) (code : String) : Bool :=
  searchAnywhere (charsStartWith lit.toList) code.toList

/-! ## Data model: findings

A finding is a Python dict.  The engine reads the keys `cwe_id`, `line`,
`confidence` and `context["function"]` and writes the keys `status`,
`suppression_reason` and `suppression_confidence`; all other keys (id, file,
severity, snippet, …) are opaque payload, represented here by `id`.  A
missing key is `none`.  The source reads the nested `context` dict only as
`finding.get("context", {}).get("function", "")`, so a missing `context` and
a `context` without `"function"` are observationally the same; both are
`context_function = none`. -/
structure Finding where
  id : String
  cwe_id : Option String
  line : Option Int
  context_function : Option String
  confidence : Option ℚ
  status : Option String
  suppression_reason : Option String
  suppression_confidence : Option ℚ
deriving DecidableEq

/-- `finding.get("context", {}).get("function", "")` — suppression.py:538. -/
def Finding.function (f : Finding) : String :=
  f.context_function.getD ""

/-! ## Gate configuration (`backend/app/config.py`)

`Config` keeps only the two fields the suppression engine reads.  The other
fields of the Python dataclass are environment-derived scalars never read by
`suppression.py`.  `get_config()` (config.py:68) never passes
`never_suppress_funcs` or `safe_strict_min_thresholds`, so both are `None`
at construction and `__post_init__` (config.py:50) installs the defaults
below unconditionally. -/
structure Config where
  never_suppress_funcs : List String
  safe_strict_min_thresholds : List (String × ℚ)
deriving DecidableEq

/-- The configuration seen by the engine: the `__post_init__` defaults of
config.py:52-66. -/
def get_config : Config where
  never_suppress_funcs :=
    ["strcpy", "strcat", "gets", "sprintf", "vsprintf", "system", "popen"]
  safe_strict_min_thresholds :=
    [("CWE-120", mkRat 95 100), ("CWE-121", mkRat 95 100), ("CWE-122", mkRat 95 100),
     ("CWE-415", mkRat 95 100), ("CWE-416", mkRat 95 100),
     ("CWE-78", mkRat 99 100), ("CWE-134", mkRat 95 100),
     ("CWE-22", mkRat 95 100), ("CWE-367", mkRat 95 100), ("CWE-330", mkRat 95 100),
     ("CWE-190", mkRat 95 100), ("CWE-191", mkRat 95 100), ("CWE-787", mkRat 95 100),
     ("CWE-467", mkRat 95 100)]

/-! ## Context extractor (`SuppressionEngine._get_line` & co.,
suppression.py:563-582).  These methods exist on the engine object and are
total; the rule objects cannot reach them (see the module comment). -/

namespace SuppressionEngine

/-- suppression.py:563 `_get_line`: 1-indexed line access, `""` out of range. -/
def _get_line (code : String) (line_num : Int) : String :=
  let lines := pySplit '\n' code
  if 0 ≤ line_num - 1 ∧ line_num - 1 < (lines.length : Int) then
    lines.getD (line_num - 1).toNat ""
  else ""

/-- suppression.py:570 `_get_prev_lines`:
`lines[max(0, line_num - count - 1) : line_num - 1]`. -/
def _get_prev_lines (code : String) (line_num : Int) (count : Int) : List String :=
  let lines := pySplit '\n' code
  let start := max 0 (line_num - count - 1)
  let stop := line_num - 1
  pySlice lines start stop

/-- suppression.py:577 `_get_next_lines`:
`lines[line_num : min(len(lines), line_num + count)]`. -/
def _get_next_lines (code : String) (line_num : Int) (count : Int) : List String :=
  let lines := pySplit '\n' code
  let start := line_num
  let stop := min (lines.length : Int) (line_num + count)
  pySlice lines start stop

end SuppressionEngine

/-! ## The 24 idiom rules (suppression.py:23-497)

Each `matches` method returns `(matched, reason, confidence_boost)`.  Every
rule except `CryptographicSourceUsedRule` calls one of `self._get_line`,
`self._get_prev_lines` or `self._get_next_lines` as soon as its cheap
cwe/function pre-filters pass; those attributes are not defined on the rule
classes, so the lookup raises `AttributeError` and everything after that call
in the source body is unreachable dead code (elided here; each elision is
noted). -/

/-- Result of one `matches` call. -/
abbrev RuleResult := PyRes (Bool × String × ℚ)

/-- A `matches` method, as consumed by the engine loop. -/
abbrev MatchFn := Finding → String → RuleResult

/-- R1 `PrintfLiteralFormatRule.matches` (suppression.py:26): CWE-134 and a
printf-family function, then `self._get_line` raises `AttributeError`
(the literal-format test that follows is unreachable). -/
def PrintfLiteralFormatRule.matches (finding : Finding) (_code : String) : RuleResult :=
  if finding.cwe_id ≠ some "CWE-134" then .ok (false, "", 0)
  else if finding.function ∉ ["printf", "fprintf", "dprintf", "snprintf",
      "vsnprintf", "vfprintf", "vprintf"] then .ok (false, "", 0)
  else .error PyErr.attributeError

/-- R2 `SnprintfLiteralFormatRule.matches` (suppression.py:45): CWE-134 and
`snprintf`, then `self._get_line` raises (rest unreachable). -/
def SnprintfLiteralFormatRule.matches (finding : Finding) (_code : String) : RuleResult :=
  if finding.cwe_id ≠ some "CWE-134" then .ok (false, "", 0)
  else if finding.function ≠ "snprintf" then .ok (false, "", 0)
  else .error PyErr.attributeError

/-- R3 `FormatStringSafeForwardRule.matches` (suppression.py:64): CWE-134,
then `self._get_line` raises (the safe-forwarding regexes are unreachable). -/
def FormatStringSafeForwardRule.matches (finding : Finding) (_code : String) : RuleResult :=
  if finding.cwe_id ≠ some "CWE-134" then .ok (false, "", 0)
  else .error PyErr.attributeError

/-- R4 `ExeclNoShellRule.matches` (suppression.py:85): CWE-78 and a function
starting with `exec`, then `self._get_line` raises (rest unreachable). -/
def ExeclNoShellRule.matches (finding : Finding) (_code : String) : RuleResult :=
  if finding.cwe_id ≠ some "CWE-78" then .ok (false, "", 0)
  else if ¬ pyStartsWith finding.function "exec" then .ok (false, "", 0)
  else .error PyErr.attributeError

/-- R5 `ExecArgAllowlistRule.matches` (suppression.py:104): CWE-78, then
`self._get_prev_lines` raises (the allowlist regexes are unreachable). -/
def ExecArgAllowlistRule.matches (finding : Finding) (_code : String) : RuleResult :=
  if finding.cwe_id ≠ some "CWE-78" then .ok (false, "", 0)
  else .error PyErr.attributeError

/-- R6 `ExecConstArgvRule.matches` (suppression.py:126): CWE-78, then
`self._get_line` raises (the argv-literal regex is unreachable). -/
def ExecConstArgvRule.matches (finding : Finding) (_code : String) : RuleResult :=
  if finding.cwe_id ≠ some "CWE-78" then .ok (false, "", 0)
  else .error PyErr.attributeError

/-- R7 `StrncpyBoundsPlusNulRule.matches` (suppression.py:141): CWE-120/121/122
and `strncpy`, then `self._get_next_lines` raises (rest unreachable). -/
def StrncpyBoundsPlusNulRule.matches (finding : Finding) (_code : String) : RuleResult :=
  if finding.cwe_id ∉ [some "CWE-120", some "CWE-121", some "CWE-122"] then
    .ok (false, "", 0)
  else if finding.function ≠ "strncpy" then .ok (false, "", 0)
  else .error PyErr.attributeError

/-- R8 `StrncatSpaceGuardRule.matches` (suppression.py:164): CWE-120/121/122
and `strncat`, then `self._get_prev_lines` raises (rest unreachable). -/
def StrncatSpaceGuardRule.matches (finding : Finding) (_code : String) : RuleResult :=
  if finding.cwe_id ∉ [some "CWE-120", some "CWE-121", some "CWE-122"] then
    .ok (false, "", 0)
  else if finding.function ≠ "strncat" then .ok (false, "", 0)
  else .error PyErr.attributeError

/-- R9 `ScanfWidthSpecifierRule.matches` (suppression.py:189): CWE-120 and a
scanf-family function, then `self._get_line` raises (rest unreachable). -/
def ScanfWidthSpecifierRule.matches (finding : Finding) (_code : String) : RuleResult :=
  if finding.cwe_id ≠ some "CWE-120" then .ok (false, "", 0)
  else if finding.function ∉ ["scanf", "fscanf", "sscanf"] then .ok (false, "", 0)
  else .error PyErr.attributeError

/-- R10 `BoundsCheckedIndexRule.matches` (suppression.py:208): CWE-120/787,
then `self._get_prev_lines` raises (rest unreachable). -/
def BoundsCheckedIndexRule.matches (finding : Finding) (_code : String) : RuleResult :=
  if finding.cwe_id ∉ [some "CWE-120", some "CWE-787"] then
    .ok (false, "", 0)
  else .error PyErr.attributeError

/-- R11 `AllocAddOverflowGuardRule.matches` (suppression.py:229): CWE-190/191,
then `self._get_prev_lines` raises (rest unreachable). -/
def AllocAddOverflowGuardRule.matches (finding : Finding) (_code : String) : RuleResult :=
  if finding.cwe_id ∉ [some "CWE-190", some "CWE-191"] then
    .ok (false, "", 0)
  else .error PyErr.attributeError

/-- R12 `MulOverflowGuardRule.matches` (suppression.py:250): CWE-190/191, then
`self._get_prev_lines` raises (rest unreachable). -/
def MulOverflowGuardRule.matches (finding : Finding) (_code : String) : RuleResult :=
  if finding.cwe_id ∉ [some "CWE-190", some "CWE-191"] then
    .ok (false, "", 0)
  else .error PyErr.attributeError

/-- R13 `SignedUnderflowGuardRule.matches` (suppression.py:267): CWE-190/191,
then `self._get_prev_lines` raises (rest unreachable). -/
def SignedUnderflowGuardRule.matches (finding : Finding) (_code : String) : RuleResult :=
  if finding.cwe_id ∉ [some "CWE-190", some "CWE-191"] then
    .ok (false, "", 0)
  else .error PyErr.attributeError

/-- R14 `FreeThenNullRule.matches` (suppression.py:284): CWE-401/415/416 and
`free`, then `self._get_next_lines` raises (rest unreachable). -/
def FreeThenNullRule.matches (finding : Finding) (_code : String) : RuleResult :=
  if finding.cwe_id ∉ [some "CWE-401", some "CWE-415", some "CWE-416"] then
    .ok (false, "", 0)
  else if finding.function ≠ "free" then .ok (false, "", 0)
  else .error PyErr.attributeError

/-- R15 `NullGuardedUseRule.matches` (suppression.py:305): CWE-476/415/416,
then `self._get_prev_lines` raises (rest unreachable). -/
def NullGuardedUseRule.matches (finding : Finding) (_code : String) : RuleResult :=
  if finding.cwe_id ∉ [some "CWE-476", some "CWE-415", some "CWE-416"] then
    .ok (false, "", 0)
  else .error PyErr.attributeError

/-- R16 `NoPostFreeUseRule.matches` (suppression.py:326): CWE-415/416, then
`self._get_next_lines` raises (rest unreachable). -/
def NoPostFreeUseRule.matches (finding : Finding) (_code : String) : RuleResult :=
  if finding.cwe_id ∉ [some "CWE-415", some "CWE-416"] then
    .ok (false, "", 0)
  else .error PyErr.attributeError

/-- R17 `LeakHandledOnErrorRule.matches` (suppression.py:351): CWE-401, then
`self._get_next_lines` raises (rest unreachable). -/
def LeakHandledOnErrorRule.matches (finding : Finding) (_code : String) : RuleResult :=
  if finding.cwe_id ≠ some "CWE-401" then .ok (false, "", 0)
  else .error PyErr.attributeError

/-- R18 `RelpathAllowlistRule.matches` (suppression.py:372): CWE-22, then
`self._get_prev_lines` raises (rest unreachable). -/
def RelpathAllowlistRule.matches (finding : Finding) (_code : String) : RuleResult :=
  if finding.cwe_id ≠ some "CWE-22" then .ok (false, "", 0)
  else .error PyErr.attributeError

/-- R19 `OpenExclusiveRule.matches` (suppression.py:394): CWE-22/367 and
`open`, then `self._get_line` raises (rest unreachable). -/
def OpenExclusiveRule.matches (finding : Finding) (_code : String) : RuleResult :=
  if finding.cwe_id ∉ [some "CWE-22", some "CWE-367"] then
    .ok (false, "", 0)
  else if finding.function ≠ "open" then .ok (false, "", 0)
  else .error PyErr.attributeError

/-- R20 `MkstempOkRule.matches` (suppression.py:413): CWE-377 and `mkstemp`,
then `self._get_next_lines` raises (rest unreachable). -/
def MkstempOkRule.matches (finding : Finding) (_code : String) : RuleResult :=
  if finding.cwe_id ≠ some "CWE-377" then .ok (false, "", 0)
  else if finding.function ≠ "mkstemp" then .ok (false, "", 0)
  else .error PyErr.attributeError

/-- R21 `SizeofFixedBufferRule.matches` (suppression.py:432): CWE-467, then
`self._get_line` raises (rest unreachable). -/
def SizeofFixedBufferRule.matches (finding : Finding) (_code : String) : RuleResult :=
  if finding.cwe_id ≠ some "CWE-467" then .ok (false, "", 0)
  else .error PyErr.attributeError

/-- R22 `SizeofDerefPointerRule.matches` (suppression.py:447): CWE-467, then
`self._get_line` raises (rest unreachable). -/
def SizeofDerefPointerRule.matches (finding : Finding) (_code : String) : RuleResult :=
  if finding.cwe_id ≠ some "CWE-467" then .ok (false, "", 0)
  else .error PyErr.attributeError

/-- R23 `CryptographicSourceUsedRule.matches` (suppression.py:462): the only
rule that uses no `self._*` helper.  For CWE-330 it runs `re.search` over the
whole source text with the patterns `getrandom\s*\(`, `arc4random\s*\(`,
`/dev/urandom` and `RAND_bytes\s*\(`; on the first hit it returns
`(True, "crypto_rng_present", 0.85)`. -/
def CryptographicSourceUsedRule.matches (finding : Finding) (code : String) : RuleResult :=
  if finding.cwe_id ≠ some "CWE-330" then .ok (false, "", 0)
  else if reSearchLitWsParen "getrandom" code
       || reSearchLitWsParen "arc4random" code
       || reSearchLit "/dev/urandom" code
       || reSearchLitWsParen "RAND_bytes" code then
    .ok (true, "crypto_rng_present", mkRat 85 100)
  else .ok (false, "", 0)

/-- R24 `ContextSafeRule.matches` (suppression.py:482): no pre-filter at all —
the body immediately evaluates `self._get_prev_lines(code, line, 3)`, which
raises `AttributeError` (the safe-marker regexes are unreachable). -/
def ContextSafeRule.matches (_finding : Finding) (_code : String) : RuleResult :=
  .error PyErr.attributeError

/-- `SuppressionEngine.__init__` (suppression.py:504-529): the fixed rule list,
in priority order. -/
def SuppressionEngine.rules : List MatchFn :=
  [PrintfLiteralFormatRule.matches,
   SnprintfLiteralFormatRule.matches,
   FormatStringSafeForwardRule.matches,
   ExeclNoShellRule.matches,
   ExecArgAllowlistRule.matches,
   ExecConstArgvRule.matches,
   StrncpyBoundsPlusNulRule.matches,
   StrncatSpaceGuardRule.matches,
   ScanfWidthSpecifierRule.matches,
   BoundsCheckedIndexRule.matches,
   AllocAddOverflowGuardRule.matches,
   MulOverflowGuardRule.matches,
   SignedUnderflowGuardRule.matches,
   FreeThenNullRule.matches,
   NullGuardedUseRule.matches,
   NoPostFreeUseRule.matches,
   LeakHandledOnErrorRule.matches,
   RelpathAllowlistRule.matches,
   OpenExclusiveRule.matches,
   MkstempOkRule.matches,
   SizeofFixedBufferRule.matches,
   SizeofDerefPointerRule.matches,
   CryptographicSourceUsedRule.matches,
   ContextSafeRule.matches]

/-! ## The engine loop (suppression.py:531-561) -/

/-- `finding["status"] = "SUPPRESSED"; finding["suppression_reason"] = reason;
finding["suppression_confidence"] = confidence_boost` (suppression.py:554-556). -/
def Finding.suppress (f : Finding) (reason : String) (confidence_boost : ℚ) : Finding :=
  { f with status := some "SUPPRESSED",
           suppression_reason := some reason,
           suppression_confidence := some confidence_boost }

/-- The inner `for rule in self.rules` loop (suppression.py:551-558): evaluate
rules in order; stop at the first `matched=true`, yielding its reason and
confidence boost; propagate any exception a `matches` call raises (there is
no `try`/`except`). -/
def scanRules (rules : List MatchFn) (finding : Finding) (code : String) :
    PyRes (Option (String × ℚ)) :=
  match rules with
  | [] => .ok none
  | rule :: rest =>
    match rule finding code with
    | .error e => .error e
    | .ok (matched, reason, confidence_boost) =>
      if matched then .ok (some (reason, confidence_boost))
      else scanRules rest finding code

/-- The per-finding body of `apply_suppression` (suppression.py:536-558):
never-suppress gate, then the strict-threshold gate on the finding's own
confidence, then the rule loop.  Returns the (possibly updated) finding and
whether a rule matched (the `suppressed_count += 1` event). -/
def processFinding (rules : List MatchFn) (finding : Finding) (code : String) :
    PyRes (Finding × Bool) :=
  let config := get_config
  if finding.function ∈ config.never_suppress_funcs then .ok (finding, false)
  else
    let cwe_id := finding.cwe_id.getD ""
    let min_threshold := dictGet config.safe_strict_min_thresholds cwe_id (mkRat 90 100)
    let confidence := finding.confidence.getD (mkRat 80 100)
    if confidence < min_threshold then .ok (finding, false)
    else
      match scanRules rules finding code with
      | .error e => .error e
      | .ok (some (reason, confidence_boost)) =>
        .ok (finding.suppress reason confidence_boost, true)
      | .ok none => .ok (finding, false)

/-- `SuppressionEngine.apply_suppression` over an explicit rule list: the
`for finding in findings` loop together with the `suppressed_count`
accumulator (suppression.py:534-560).  The count is only handed to
`logger.info`; the Python method returns just the findings list. -/
def applySuppressionAux (rules : List MatchFn) (findings : List Finding) (code : String) :
    PyRes (List Finding × Nat) :=
  match findings with
  | [] => .ok ([], 0)
  | f :: fs =>
    match processFinding rules f code with
    | .error e => .error e
    | .ok (g, matched) =>
      match applySuppressionAux rules fs code with
      | .error e => .error e
      | .ok (gs, n) => .ok (g :: gs, (if matched then 1 else 0) + n)

/-- `SuppressionEngine.apply_suppression` (suppression.py:531-561), with the
engine's fixed rule list: returns the findings list (the same findings,
updated in place in Python); the suppressed count is logged, not returned. -/
def apply_suppression (findings : List Finding) (code : String) : PyRes (List Finding) :=
  (applySuppressionAux SuppressionEngine.rules findings code).map Prod.fst

/-- `apply_false_positive_suppression` (suppression.py:587-589): delegates to
the module-level engine instance's `apply_suppression`. -/
def apply_false_positive_suppression (findings : List Finding) (code : String) :
    PyRes (List Finding) :=
  apply_suppression findings code

/-! ## General lemmas about the engine -/

/-- A `matches` result that returned without raising and did not match. -/
def isNonMatch (e : RuleResult) : Bool :=
  match e with
  | .ok (false, _, _) => true
  | _ => false

theorem isNonMatch_iff (e : RuleResult) :
    isNonMatch e = true ↔ ∃ rs cb, e = .ok (false, rs, cb) := by
  cases e with
  | error e => simp [isNonMatch]
  | ok t =>
    obtain ⟨m, rs, cb⟩ := t
    cases m <;> simp [isNonMatch]

theorem processFinding_denylist (rules : List MatchFn) (f : Finding) (code : String)
    (h : f.function ∈ get_config.never_suppress_funcs) :
    processFinding rules f code = .ok (f, false) := by
  simp [processFinding, h]

theorem processFinding_lowconf (rules : List MatchFn) (f : Finding) (code : String)
    (h : f.confidence.getD (mkRat 80 100) <
      dictGet get_config.safe_strict_min_thresholds (f.cwe_id.getD "") (mkRat 90 100)) :
    processFinding rules f code = .ok (f, false) := by
  by_cases hd : f.function ∈ get_config.never_suppress_funcs
  · simp [processFinding, hd]
  · simp [processFinding, hd, h]

theorem processFinding_shape (rules : List MatchFn) (f : Finding) (code : String)
    (g : Finding) (m : Bool) (h : processFinding rules f code = .ok (g, m)) :
    (g = f ∧ m = false) ∨
      ∃ r c, scanRules rules f code = .ok (some (r, c)) ∧ g = f.suppress r c ∧ m = true := by
  by_cases hd : f.function ∈ get_config.never_suppress_funcs
  · rw [processFinding_denylist rules f code hd] at h
    simp at h
    left
    exact ⟨h.1.symm, h.2⟩
  · by_cases hc : f.confidence.getD (mkRat 80 100) <
        dictGet get_config.safe_strict_min_thresholds (f.cwe_id.getD "") (mkRat 90 100)
    · rw [processFinding_lowconf rules f code hc] at h
      simp at h
      left
      exact ⟨h.1.symm, h.2⟩
    · rcases hscan : scanRules rules f code with e | o
      · simp [processFinding, hd, hc, hscan] at h
      · rcases o with _ | ⟨r, c⟩
        · simp [processFinding, hd, hc, hscan] at h
          left
          exact ⟨h.1.symm, h.2⟩
        · simp [processFinding, hd, hc, hscan] at h
          right
          exact ⟨r, c, rfl, h.1.symm, h.2⟩

theorem dictGet_bound (d : List (String × ℚ)) (k : String) (dflt q : ℚ)
    (hall : ∀ p ∈ d, q < p.2) (hdflt : q < dflt) : q < dictGet d k dflt := by
  induction d with
  | nil => simpa [dictGet] using hdflt
  | cons p rest ih =>
    simp only [dictGet]
    split
    · exact hall p (List.mem_cons_self p rest)
    · exact ih (fun p2 hp2 => hall p2 (List.mem_cons_of_mem p hp2))

theorem thresholds_above_default (cwe : String) :
    mkRat 80 100 < dictGet get_config.safe_strict_min_thresholds cwe (mkRat 90 100) :=
  dictGet_bound _ cwe _ _ (by decide) (by decide)

theorem scanRules_first_match (rules : List MatchFn) (f : Finding) (code : String)
    (i : Nat) (hi : i < rules.length) (r : String) (cb : ℚ)
    (hbefore : ∀ j, (hj : j < i) → isNonMatch ((rules.get ⟨j, Nat.lt_trans hj hi⟩) f code) = true)
    (hmatch : (rules.get ⟨i, hi⟩) f code = .ok (true, r, cb)) :
    scanRules rules f code = .ok (some (r, cb)) ∧
      scanRules (rules.take (i + 1)) f code = .ok (some (r, cb)) := by
  induction rules generalizing i with
  | nil => exact absurd hi (Nat.not_lt_zero i)
  | cons hd tl ih =>
    cases i with
    | zero =>
      simp only [List.get] at hmatch
      constructor <;> simp [scanRules, hmatch]
    | succ i' =>
      have h0 : isNonMatch (hd f code) = true := by
        have := hbefore 0 (Nat.succ_pos i')
        simpa using this
      obtain ⟨rs0, cb0, he0⟩ := (isNonMatch_iff (hd f code)).mp h0
      have hi' : i' < tl.length := Nat.lt_of_succ_lt_succ hi
      have hmatch' : (tl.get ⟨i', hi'⟩) f code = .ok (true, r, cb) := by
        simpa using hmatch
      have hbefore' : ∀ j, (hj : j < i') →
          isNonMatch ((tl.get ⟨j, Nat.lt_trans hj hi'⟩) f code) = true := by
        intro j hj
        have := hbefore (j + 1) (Nat.succ_lt_succ hj)
        simpa using this
      obtain ⟨hfull, htake⟩ := ih i' hi' hbefore' hmatch'
      constructor
      · simp [scanRules, he0, hfull]
      · simp [List.take, scanRules, he0, htake]

-- stability of the engine's rule scan under the fields `suppress` writes
theorem scanRules_engine_suppress (f : Finding) (r : String) (c : ℚ) (code : String) :
    scanRules SuppressionEngine.rules (f.suppress r c) code =
      scanRules SuppressionEngine.rules f code := rfl

theorem suppress_function (f : Finding) (r : String) (c : ℚ) :
    (f.suppress r c).function = f.function := rfl

theorem suppress_idem (f : Finding) (r : String) (c : ℚ) :
    (f.suppress r c).suppress r c = f.suppress r c := rfl

theorem processFinding_engine_idem (f g : Finding) (m : Bool) (code : String)
    (h : processFinding SuppressionEngine.rules f code = .ok (g, m)) :
    ∃ m2, processFinding SuppressionEngine.rules g code = .ok (g, m2) := by
  rcases processFinding_shape _ _ _ _ _ h with ⟨hg, _⟩ | ⟨r, c, hscan, hg, hm⟩
  · subst hg
    exact ⟨m, h⟩
  · subst hg
    by_cases hd : f.function ∈ get_config.never_suppress_funcs
    · rw [processFinding_denylist SuppressionEngine.rules f code hd] at h
      simp [hm] at h
    · by_cases hc : f.confidence.getD (mkRat 80 100) <
          dictGet get_config.safe_strict_min_thresholds (f.cwe_id.getD "") (mkRat 90 100)
      · rw [processFinding_lowconf SuppressionEngine.rules f code hc] at h
        simp [hm] at h
      · refine ⟨true, ?_⟩
        have hfn2 : (f.suppress r c).function ∉ get_config.never_suppress_funcs := by
          rwa [suppress_function]
        have hc2 : ¬ ((f.suppress r c).confidence.getD (mkRat 80 100) <
            dictGet get_config.safe_strict_min_thresholds
              ((f.suppress r c).cwe_id.getD "") (mkRat 90 100)) := hc
        have hscan2 : scanRules SuppressionEngine.rules (f.suppress r c) code =
            .ok (some (r, c)) := by
          rw [scanRules_engine_suppress]
          exact hscan
        simp [processFinding, hfn2, hc2, hscan2, suppress_idem]

theorem applySuppressionAux_length (rules : List MatchFn) (fs : List Finding) (code : String)
    (out : List Finding) (n : Nat)
    (h : applySuppressionAux rules fs code = .ok (out, n)) :
    out.length = fs.length := by
  induction fs generalizing out n with
  | nil =>
    simp [applySuppressionAux] at h
    simp [h.1]
  | cons f fs ih =>
    rcases hp : processFinding rules f code with e | ⟨g, m⟩
    · simp [applySuppressionAux, hp] at h
    · rcases ha : applySuppressionAux rules fs code with e | ⟨gs, n2⟩
      · simp [applySuppressionAux, hp, ha] at h
      · simp [applySuppressionAux, hp, ha] at h
        rw [← h.1]
        simp [ih gs n2 ha]

theorem applySuppressionAux_engine_idem (fs : List Finding) (code : String)
    (out : List Finding) (n : Nat)
    (h : applySuppressionAux SuppressionEngine.rules fs code = .ok (out, n)) :
    ∃ n2, applySuppressionAux SuppressionEngine.rules out code = .ok (out, n2) := by
  induction fs generalizing out n with
  | nil =>
    simp [applySuppressionAux] at h
    exact ⟨0, by simp [h.1, applySuppressionAux]⟩
  | cons f fs ih =>
    rcases hp : processFinding SuppressionEngine.rules f code with e | ⟨g, m⟩
    · simp [applySuppressionAux, hp] at h
    · rcases ha : applySuppressionAux SuppressionEngine.rules fs code with e | ⟨gs, n2⟩
      · simp [applySuppressionAux, hp, ha] at h
      · simp [applySuppressionAux, hp, ha] at h
        obtain ⟨m2, hg2⟩ := processFinding_engine_idem f g m code hp
        obtain ⟨n3, hgs2⟩ := ih gs n2 ha
        refine ⟨(if m2 then 1 else 0) + n3, ?_⟩
        rw [← h.1]
        simp [applySuppressionAux, hg2, hgs2]

theorem suppress_status (f : Finding) (r : String) (c : ℚ) :
    (f.suppress r c).status = some "SUPPRESSED" := rfl

theorem suppress_reason (f : Finding) (r : String) (c : ℚ) :
    (f.suppress r c).suppression_reason = some r := rfl

theorem applySuppressionAux_count (rules : List MatchFn) (fs : List Finding) (code : String)
    (out : List Finding) (n : Nat)
    (h : applySuppressionAux rules fs code = .ok (out, n))
    (hact : ∀ f ∈ fs, f.status ≠ some "SUPPRESSED") :
    n = (out.filter (fun g => g.status == some "SUPPRESSED")).length := by
  induction fs generalizing out n with
  | nil =>
    simp [applySuppressionAux] at h
    obtain ⟨h1, h2⟩ := h
    subst h1
    subst h2
    simp
  | cons f fs ih =>
    rcases hp : processFinding rules f code with e | ⟨g, m⟩
    · simp [applySuppressionAux, hp] at h
    · rcases ha : applySuppressionAux rules fs code with e | ⟨gs, n2⟩
      · simp [applySuppressionAux, hp, ha] at h
      · simp [applySuppressionAux, hp, ha] at h
        have hrest := ih gs n2 ha (fun f2 hf2 => hact f2 (List.mem_cons_of_mem f hf2))
        rcases processFinding_shape _ _ _ _ _ hp with ⟨hg, hm⟩ | ⟨r, c, _, hg, hm⟩
        · have hgs : g.status ≠ some "SUPPRESSED" := by
            rw [hg]
            exact hact f (List.mem_cons_self f fs)
          have hcond : (g.status == some "SUPPRESSED") = false := by
            simpa using hgs
          rw [← h.1, ← h.2]
          simp [hm, List.filter_cons, hcond, hrest]
        · have hcond : (g.status == some "SUPPRESSED") = true := by
            simp [hg, suppress_status]
          rw [← h.1, ← h.2]
          simp [hm, List.filter_cons, hcond, hrest]
          omega

theorem applySuppressionAux_status (rules : List MatchFn) (fs : List Finding) (code : String)
    (out : List Finding) (n : Nat)
    (h : applySuppressionAux rules fs code = .ok (out, n)) :
    List.Forall₂ (fun f g =>
      (f.status = some "SUPPRESSED" → g.status = some "SUPPRESSED")
      ∧ (g.status = f.status ∨ g.status = some "SUPPRESSED")
      ∧ ((f.status = some "SUPPRESSED" ↔ f.suppression_reason ≠ none) →
          (g.status = some "SUPPRESSED" ↔ g.suppression_reason ≠ none))) fs out := by
  induction fs generalizing out n with
  | nil =>
    simp [applySuppressionAux] at h
    simp [h.1.symm]
  | cons f fs ih =>
    rcases hp : processFinding rules f code with e | ⟨g, m⟩
    · simp [applySuppressionAux, hp] at h
    · rcases ha : applySuppressionAux rules fs code with e | ⟨gs, n2⟩
      · simp [applySuppressionAux, hp, ha] at h
      · simp [applySuppressionAux, hp, ha] at h
        rw [← h.1]
        refine List.Forall₂.cons ?_ (ih gs n2 ha)
        rcases processFinding_shape _ _ _ _ _ hp with ⟨hg, _⟩ | ⟨r, c, _, hg, _⟩
        · subst hg
          exact ⟨fun hs => hs, Or.inl rfl, fun hi => hi⟩
        · subst hg
          refine ⟨fun _ => suppress_status f r c, Or.inr (suppress_status f r c), ?_⟩
          intro _
          rw [suppress_status, suppress_reason]
          simp

theorem pyIndex_of_nonneg_le (i : Int) (len : Nat) (h0 : 0 ≤ i) (hle : i ≤ len) :
    pyIndex i len = i.toNat := by
  unfold pyIndex
  split_ifs <;> omega

theorem get_line_spec (code : String) (n : Int) :
    SuppressionEngine._get_line code n =
      if 1 ≤ n ∧ n ≤ ((pySplit '\n' code).length : Int) then
        (pySplit '\n' code).getD (n - 1).toNat ""
      else "" := by
  unfold SuppressionEngine._get_line
  by_cases h : 1 ≤ n ∧ n ≤ ((pySplit '\n' code).length : Int)
  · rw [if_pos (by omega), if_pos h]
  · rw [if_neg (by omega), if_neg h]

theorem get_prev_lines_in_range (code : String) (n : Int) (k : Int)
    (h1 : 1 ≤ n) (h2 : n ≤ ((pySplit '\n' code).length : Int)) (hk : 0 ≤ k) :
    SuppressionEngine._get_prev_lines code n k =
      ((pySplit '\n' code).take (n - 1).toNat).drop ((n - 1).toNat - k.toNat) := by
  simp only [SuppressionEngine._get_prev_lines, pySlice]
  have e1 : pyIndex (n - 1) (pySplit '\n' code).length = (n - 1).toNat := by
    unfold pyIndex
    split_ifs <;> omega
  have e2 : pyIndex (max 0 (n - k - 1)) (pySplit '\n' code).length = (n - 1).toNat - k.toNat := by
    unfold pyIndex
    split_ifs <;> omega
  rw [e1, e2]

theorem get_next_lines_in_range (code : String) (n : Int) (k : Int)
    (h1 : 1 ≤ n) (h2 : n ≤ ((pySplit '\n' code).length : Int)) (hk : 0 ≤ k) :
    SuppressionEngine._get_next_lines code n k =
      ((pySplit '\n' code).drop n.toNat).take k.toNat := by
  simp only [SuppressionEngine._get_next_lines, pySlice]
  have e1 : pyIndex n (pySplit '\n' code).length = n.toNat := by
    unfold pyIndex
    split_ifs <;> omega
  have e2 : pyIndex (min ((pySplit '\n' code).length : Int) (n + k)) (pySplit '\n' code).length
      = min (pySplit '\n' code).length (n.toNat + k.toNat) := by
    unfold pyIndex
    split_ifs <;> omega
  rw [e1, e2]
  rw [List.drop_take]
  rcases le_or_lt (n.toNat + k.toNat) (pySplit '\n' code).length with hle | hlt
  · have h3 : min (pySplit '\n' code).length (n.toNat + k.toNat) - n.toNat = k.toNat := by omega
    rw [h3]
  · have h3 : min (pySplit '\n' code).length (n.toNat + k.toNat) - n.toNat
        = (pySplit '\n' code).length - n.toNat := by omega
    rw [h3]
    rw [List.take_of_length_le (by simp), List.take_of_length_le (by simp; omega)]

/-! ## Concrete findings and source texts used as inputs -/

/-- A CWE-134 finding attributed to `printf`, confident enough to pass the
strict-threshold gate (0.95 = the CWE-134 minimum). -/
def printfFinding : Finding :=
  { id := "f-printf", cwe_id := some "CWE-134", line := some 1,
    context_function := some "printf", confidence := some (mkRat 95 100),
    status := some "ACTIVE", suppression_reason := none,
    suppression_confidence := none }

/-- A CWE-22 path-traversal finding passing the gate (0.95 threshold). -/
def cwe22Finding : Finding :=
  { id := "f-relpath", cwe_id := some "CWE-22", line := some 3,
    context_function := some "fopen", confidence := some (mkRat 95 100),
    status := some "ACTIVE", suppression_reason := none,
    suppression_confidence := none }

/-- A CWE-330 weak-randomness finding passing the gate (0.95 threshold). -/
def cryptoFinding : Finding :=
  { id := "f-rng", cwe_id := some "CWE-330", line := some 2,
    context_function := some "rand", confidence := some (mkRat 95 100),
    status := some "ACTIVE", suppression_reason := none,
    suppression_confidence := none }

/-- `cryptoFinding` as it comes out of a previous engine pass: already
SUPPRESSED with the exact fields a `crypto_rng_present` match writes. -/
def cryptoFindingSuppressed : Finding :=
  { cryptoFinding with status := some "SUPPRESSED",
                       suppression_reason := some "crypto_rng_present",
                       suppression_confidence := some (mkRat 85 100) }

/-- Source text containing a cryptographic RNG call, so that
`CryptographicSourceUsedRule` matches. -/
def cryptoCode : String := "int k;\nbuf = getrandom (n);\n"

/-- A CWE-120 finding attributed to the denylisted function `strcpy`. -/
def strcpyFinding : Finding :=
  { id := "f-strcpy", cwe_id := some "CWE-120", line := some 1,
    context_function := some "strcpy", confidence := some (mkRat 99 100),
    status := some "ACTIVE", suppression_reason := none,
    suppression_confidence := none }

/-- A CWE-78 finding whose own confidence 0.90 is below the CWE-78 strict
threshold 0.99 (the spec's exec_arg_allowlist example). -/
def lowConfExecFinding : Finding :=
  { id := "f-exec", cwe_id := some "CWE-78", line := some 7,
    context_function := some "execv", confidence := some (mkRat 90 100),
    status := some "ACTIVE", suppression_reason := none,
    suppression_confidence := none }

/-- A CWE-120 finding with no `confidence` key at all. -/
def noConfFinding : Finding :=
  { id := "f-noconf", cwe_id := some "CWE-120", line := some 4,
    context_function := some "memcpy", confidence := none,
    status := some "ACTIVE", suppression_reason := none,
    suppression_confidence := none }

/-! ## Claims -/

/-- C1: the claim says `apply_suppression` / `apply_false_positive_suppression`
never raise — any exception inside a rule's `matches` is caught at the
rule-iteration boundary and treated as a non-match.  The code has no
`try`/`except` anywhere in the loop, and the rule classes call helper
attributes that do not exist on them.  Evaluating the code at the failing
input — a single CWE-134 `printf` finding that passes both gates — shows
`PrintfLiteralFormatRule.matches` raising `AttributeError` at
`self._get_line`, and the exception propagating out of the top-level calls
to the caller instead of being caught. -/
theorem c1_exception_escapes_apply_suppression :
    apply_false_positive_suppression [printfFinding] "printf(buf);"
        = .error PyErr.attributeError
    ∧ apply_suppression [printfFinding] "printf(buf);"
        = .error PyErr.attributeError := by
  exact ⟨rfl, rfl⟩

/-- C2 counterexample: a rule match whose proposed confidence is strictly
below the per-CWE minimum *does* suppress.  `cryptoFinding` (CWE-330, own
confidence 0.95 = the CWE-330 threshold) passes the gate; the first 22 rules
decline; `CryptographicSourceUsedRule` matches proposing 0.85 < 0.95, and the
engine records SUPPRESSED with suppression confidence 0.85 — the rule's
proposal is never checked against the threshold. -/
theorem c2_counterexample_low_proposal_suppresses :
    dictGet get_config.safe_strict_min_thresholds "CWE-330" (mkRat 90 100) = mkRat 95 100
    ∧ mkRat 85 100 < mkRat 95 100
    ∧ apply_suppression [cryptoFinding] cryptoCode
        = .ok [cryptoFinding.suppress "crypto_rng_present" (mkRat 85 100)]
    ∧ (cryptoFinding.suppress "crypto_rng_present" (mkRat 85 100)).status
        = some "SUPPRESSED"
    ∧ (cryptoFinding.suppress "crypto_rng_present" (mkRat 85 100)).suppression_confidence
        = some (mkRat 85 100) := by
  refine ⟨rfl, by decide, by decide, rfl, rfl⟩

/-- C2 amended: the threshold gate validates the *finding's own* confidence
(default 0.80 when the key is missing) against
`minConfidenceByCwe[finding.cwe_id]` (default 0.90) *before* any rule runs: a
finding below its minimum is returned unchanged, with no rule evaluated (the
result is the same for every rule list).  The rule's proposed confidence is
never compared with the threshold.  In particular the spec's example — a
CWE-78 finding with confidence 0.90 against the 0.99 threshold — stays
ACTIVE because of this pre-gate, not because a match is rejected. -/
theorem c2_amended_gate_on_finding_confidence (rules : List MatchFn) (f : Finding)
    (code : String)
    (h : f.confidence.getD (mkRat 80 100) <
      dictGet get_config.safe_strict_min_thresholds (f.cwe_id.getD "") (mkRat 90 100)) :
    processFinding rules f code = .ok (f, false) :=
  processFinding_lowconf rules f code h

/-- Witness for the amended C2, at the spec's own example input. -/
theorem c2_amended_witness :
    processFinding SuppressionEngine.rules lowConfExecFinding "execv(p, a);"
        = .ok (lowConfExecFinding, false) :=
  c2_amended_gate_on_finding_confidence SuppressionEngine.rules lowConfExecFinding
    "execv(p, a);" (by decide)

/-- C3: a finding whose `context.function` is in the never-suppress denylist
(by default strcpy, strcat, gets, sprintf, vsprintf, system, popen) is
returned unchanged — in particular an ACTIVE finding stays ACTIVE — and no
rule is evaluated at all: the outcome is identical for *every* rule list,
including one containing `context_safe` or any rule that would otherwise
match. -/
theorem c3_denylist_absolute (f : Finding)
    (h : f.function ∈ get_config.never_suppress_funcs) :
    get_config.never_suppress_funcs
        = ["strcpy", "strcat", "gets", "sprintf", "vsprintf", "system", "popen"]
    ∧ (∀ rules code, processFinding rules f code = .ok (f, false))
    ∧ (∀ code, apply_suppression [f] code = .ok [f]) := by
  refine ⟨rfl, fun rules code => processFinding_denylist rules f code h, fun code => ?_⟩
  have hp := processFinding_denylist SuppressionEngine.rules f code h
  simp [apply_suppression, applySuppressionAux, hp, Except.map]

/-- Witness for C3: a `strcpy` finding, at the full engine rule list. -/
theorem c3_witness :
    processFinding SuppressionEngine.rules strcpyFinding "strcpy(buf, input);"
        = .ok (strcpyFinding, false)
    ∧ apply_suppression [strcpyFinding] "strcpy(buf, input);" = .ok [strcpyFinding] := by
  have h := c3_denylist_absolute strcpyFinding (by decide)
  exact ⟨h.2.1 SuppressionEngine.rules "strcpy(buf, input);",
         h.2.2 "strcpy(buf, input);"⟩

/-- C4 counterexample: the claim promises `len(output) == len(input)` *even
when a rule's internal evaluation fails*.  At a concrete input — a CWE-22
finding that passes both gates and reaches `RelpathAllowlistRule`, whose
`matches` raises `AttributeError` — `apply_suppression` raises instead of
returning: there is no output list at all, so the claimed guarantee fails
exactly in the failure case it quantifies over. -/
theorem c4_counterexample_failure_returns_no_list :
    apply_suppression [cwe22Finding] "path = user_input;" = .error PyErr.attributeError
    ∧ ∀ out : List Finding,
        apply_suppression [cwe22Finding] "path = user_input;" ≠ .ok out := by
  refine ⟨rfl, fun out h => ?_⟩
  rw [show apply_suppression [cwe22Finding] "path = user_input;"
      = .error PyErr.attributeError from rfl] at h
  exact Except.noConfusion h

/-- C4 amended: on every run that returns (no rule raised), the returned list
has exactly the length of the input list — no finding is dropped or
duplicated; when a rule's internal evaluation raises, the call raises and
returns no list. -/
theorem c4_amended_conservation_on_return (fs : List Finding) (code : String)
    (out : List Finding) (h : apply_suppression fs code = .ok out) :
    out.length = fs.length := by
  unfold apply_suppression at h
  rcases ha : applySuppressionAux SuppressionEngine.rules fs code with e | ⟨gs, n⟩
  · rw [ha] at h
    simp [Except.map] at h
  · rw [ha] at h
    simp [Except.map] at h
    rw [← h]
    exact applySuppressionAux_length SuppressionEngine.rules fs code gs n ha

/-- Witness for the amended C4: a two-finding run that returns, with both
findings intact. -/
theorem c4_amended_witness :
    apply_suppression [strcpyFinding, cryptoFinding] cryptoCode
        = .ok [strcpyFinding, cryptoFinding.suppress "crypto_rng_present" (mkRat 85 100)]
    ∧ ([strcpyFinding, cryptoFinding.suppress "crypto_rng_present" (mkRat 85 100)] :
        List Finding).length = ([strcpyFinding, cryptoFinding] : List Finding).length := by
  refine ⟨by decide, ?_⟩
  exact c4_amended_conservation_on_return [strcpyFinding, cryptoFinding] cryptoCode
    [strcpyFinding, cryptoFinding.suppress "crypto_rng_present" (mkRat 85 100)] (by decide)

/-- C5: first-match determinism.  For a finding that passes both gates, if the
rules before position `i` all return without matching and rule `i` matches
with `(reason, confidence)`, the engine's recorded decision is exactly the
one rule `i` alone produces — status SUPPRESSED with that reason and
confidence — and the rules after `i` have no effect: the run equals the run
with the rule list truncated right after rule `i`. -/
theorem c5_first_match_determinism (rules : List MatchFn) (f : Finding) (code : String)
    (i : Nat) (hi : i < rules.length) (r : String) (cb : ℚ)
    (hfn : f.function ∉ get_config.never_suppress_funcs)
    (hconf : ¬ (f.confidence.getD (mkRat 80 100) <
      dictGet get_config.safe_strict_min_thresholds (f.cwe_id.getD "") (mkRat 90 100)))
    (hbefore : ∀ j, (hj : j < i) →
      isNonMatch ((rules.get ⟨j, Nat.lt_trans hj hi⟩) f code) = true)
    (hmatch : (rules.get ⟨i, hi⟩) f code = .ok (true, r, cb)) :
    processFinding rules f code = .ok (f.suppress r cb, true)
    ∧ processFinding rules f code = processFinding (rules.take (i + 1)) f code := by
  obtain ⟨hfull, htake⟩ := scanRules_first_match rules f code i hi r cb hbefore hmatch
  constructor
  · simp [processFinding, hfn, hconf, hfull]
  · simp [processFinding, hfn, hconf, hfull, htake]

/-- Witness for C5: `cryptoFinding` with the engine's own rule list — rules
0–21 decline, rule 22 (`CryptographicSourceUsedRule`) matches, and the run
equals the run truncated after rule 22 (rule 23, `ContextSafeRule`, which
would raise, is never consulted). -/
theorem c5_witness :
    processFinding SuppressionEngine.rules cryptoFinding cryptoCode
        = .ok (cryptoFinding.suppress "crypto_rng_present" (mkRat 85 100), true)
    ∧ processFinding SuppressionEngine.rules cryptoFinding cryptoCode
        = processFinding (SuppressionEngine.rules.take 23) cryptoFinding cryptoCode :=
  c5_first_match_determinism SuppressionEngine.rules cryptoFinding cryptoCode 22
    (by decide) "crypto_rng_present" (mkRat 85 100) (by decide) (by decide)
    (by decide) (by decide)

/-- C6: idempotence.  If a run of `apply_suppression` returns, running the
engine again on its output (with the same source text) returns that output
unchanged: the written fields (`status`, `suppression_reason`,
`suppression_confidence`) are read neither by the gates nor by any rule, so
the second pass recomputes the identical decision for every finding. -/
theorem c6_idempotent (fs : List Finding) (code : String) (out : List Finding)
    (h : apply_suppression fs code = .ok out) :
    apply_suppression out code = .ok out := by
  unfold apply_suppression at h ⊢
  rcases ha : applySuppressionAux SuppressionEngine.rules fs code with e | ⟨gs, n⟩
  · rw [ha] at h
    simp [Except.map] at h
  · rw [ha] at h
    simp [Except.map] at h
    subst h
    obtain ⟨n2, h2⟩ := applySuppressionAux_engine_idem fs code gs n ha
    rw [h2]
    rfl

/-- Witness for C6: a first pass suppresses `cryptoFinding`; the second pass
returns the suppressed list unchanged. -/
theorem c6_witness :
    apply_suppression [cryptoFinding.suppress "crypto_rng_present" (mkRat 85 100)] cryptoCode
        = .ok [cryptoFinding.suppress "crypto_rng_present" (mkRat 85 100)] :=
  c6_idempotent [cryptoFinding] cryptoCode
    [cryptoFinding.suppress "crypto_rng_present" (mkRat 85 100)] (by decide)

/-- C7 counterexample: the claim says the window helpers return *empty lists*
for out-of-range line references.  With `line_num = 0` — the engine's own
default for a finding without a `line` key, and out of range for 1-indexed
lines — Python slice arithmetic makes `lines[start:end]` wrap the negative
`end = -1`: `_get_prev_lines` returns every line but the last and
`_get_next_lines` returns the first `count` lines, both non-empty. -/
theorem c7_counterexample_line_zero_not_empty :
    SuppressionEngine._get_prev_lines "a\nb\nc" 0 5 = ["a", "b"]
    ∧ SuppressionEngine._get_prev_lines "a\nb\nc" 0 5 ≠ []
    ∧ SuppressionEngine._get_next_lines "a\nb\nc" 0 2 = ["a", "b"]
    ∧ SuppressionEngine._get_next_lines "a\nb\nc" 0 2 ≠ [] := by
  refine ⟨by decide, by decide, by decide, by decide⟩

/-- C7 amended: `_get_line` does satisfy the claim — the 1-indexed line `n`,
or `""` out of range.  The window helpers are total (never raise) and, for
*in-range* `n` (`1 ≤ n ≤ number of lines`), return exactly the `≤ k` lines
immediately before / after line `n` (fewer near the boundaries); but for
out-of-range `n` they follow Python slice semantics and can return non-empty
lists (see the counterexample), so the empty-list clause must be restricted
to in-range windows. -/
theorem c7_amended_extractor_contract (code : String) (n : Int) (k : Int) (hk : 0 ≤ k) :
    (SuppressionEngine._get_line code n =
      if 1 ≤ n ∧ n ≤ ((pySplit '\n' code).length : Int) then
        (pySplit '\n' code).getD (n - 1).toNat ""
      else "")
    ∧ (1 ≤ n → n ≤ ((pySplit '\n' code).length : Int) →
        SuppressionEngine._get_prev_lines code n k
          = ((pySplit '\n' code).take (n - 1).toNat).drop ((n - 1).toNat - k.toNat)
        ∧ SuppressionEngine._get_next_lines code n k
          = ((pySplit '\n' code).drop n.toNat).take k.toNat) :=
  ⟨get_line_spec code n, fun h1 h2 =>
    ⟨get_prev_lines_in_range code n k h1 h2 hk,
     get_next_lines_in_range code n k h1 h2 hk⟩⟩

/-- Witness for the amended C7, on a three-line text at line 2. -/
theorem c7_amended_witness :
    SuppressionEngine._get_line "a\nb\nc" 2 = "b"
    ∧ SuppressionEngine._get_prev_lines "a\nb\nc" 2 1 = ["a"]
    ∧ SuppressionEngine._get_next_lines "a\nb\nc" 2 1 = ["c"] := by
  obtain ⟨hline, hwin⟩ := c7_amended_extractor_contract "a\nb\nc" 2 1 (by decide)
  obtain ⟨hprev, hnext⟩ := hwin (by decide) (by decide)
  refine ⟨?_, ?_, ?_⟩
  · rw [hline]
    decide
  · rw [hprev]
    decide
  · rw [hnext]
    decide

/-- C8: status monotonicity.  On any returning run, finding-by-finding: a
finding that entered SUPPRESSED leaves SUPPRESSED (never reverted); the only
possible change of `status` is to SUPPRESSED (the engine writes no other
value); and the invariant `suppression_reason` set ↔ `status = SUPPRESSED`
is preserved from input to output, since a match writes both fields
together. -/
theorem c8_status_monotonic (fs : List Finding) (code : String) (out : List Finding)
    (h : apply_suppression fs code = .ok out) :
    List.Forall₂ (fun f g =>
      (f.status = some "SUPPRESSED" → g.status = some "SUPPRESSED")
      ∧ (g.status = f.status ∨ g.status = some "SUPPRESSED")
      ∧ ((f.status = some "SUPPRESSED" ↔ f.suppression_reason ≠ none) →
          (g.status = some "SUPPRESSED" ↔ g.suppression_reason ≠ none))) fs out := by
  unfold apply_suppression at h
  rcases ha : applySuppressionAux SuppressionEngine.rules fs code with e | ⟨gs, n⟩
  · rw [ha] at h
    simp [Except.map] at h
  · rw [ha] at h
    simp [Except.map] at h
    subst h
    exact applySuppressionAux_status SuppressionEngine.rules fs code gs n ha

/-- Witness for C8: an ACTIVE finding transitioned to SUPPRESSED, with both
conjuncts of the invariant checked on the concrete output. -/
theorem c8_witness :
    List.Forall₂ (fun f g =>
      (f.status = some "SUPPRESSED" → g.status = some "SUPPRESSED")
      ∧ (g.status = f.status ∨ g.status = some "SUPPRESSED")
      ∧ ((f.status = some "SUPPRESSED" ↔ f.suppression_reason ≠ none) →
          (g.status = some "SUPPRESSED" ↔ g.suppression_reason ≠ none)))
      [cryptoFinding]
      [cryptoFinding.suppress "crypto_rng_present" (mkRat 85 100)] :=
  c8_status_monotonic [cryptoFinding] cryptoCode
    [cryptoFinding.suppress "crypto_rng_present" (mkRat 85 100)] (by decide)

/-- C9 counterexample: the claim says the engine *returns* a count equal to
the number of findings it *transitioned* to SUPPRESSED.  Neither part matches
the code.  On a finding that is already SUPPRESSED on input (with exactly the
fields a `crypto_rng_present` match writes), the engine re-matches it and
increments `suppressed_count` to 1 although the finding is returned bit-for-bit
unchanged — zero transitions; and `apply_suppression` returns only the
findings list, the count being merely logged: the public result carries no
integer at all. -/
theorem c9_counterexample_count_without_transition :
    applySuppressionAux SuppressionEngine.rules [cryptoFindingSuppressed] cryptoCode
        = .ok ([cryptoFindingSuppressed], 1)
    ∧ apply_suppression [cryptoFindingSuppressed] cryptoCode
        = .ok [cryptoFindingSuppressed] := by
  refine ⟨by decide, by decide⟩

/-- C9 amended: the engine accumulates `suppressed_count` as the number of
findings for which some rule matched in this invocation (also counting
findings that were already SUPPRESSED on input), logs it, and returns only
the findings list.  For inputs in which no finding is already SUPPRESSED the
accumulated count does equal the number of findings transitioned to
SUPPRESSED, i.e. the number of SUPPRESSED findings in the output. -/
theorem c9_amended_count_characterisation (fs : List Finding) (code : String)
    (out : List Finding) (n : Nat)
    (h : applySuppressionAux SuppressionEngine.rules fs code = .ok (out, n))
    (hact : ∀ f ∈ fs, f.status ≠ some "SUPPRESSED") :
    apply_suppression fs code = .ok out
    ∧ n = (out.filter (fun g => g.status == some "SUPPRESSED")).length := by
  refine ⟨?_, applySuppressionAux_count SuppressionEngine.rules fs code out n h hact⟩
  unfold apply_suppression
  rw [h]
  rfl

/-- Witness for the amended C9: one ACTIVE finding is suppressed, the count is
1, and 1 is indeed the number of SUPPRESSED findings in the output. -/
theorem c9_amended_witness :
    apply_suppression [cryptoFinding] cryptoCode
        = .ok [cryptoFinding.suppress "crypto_rng_present" (mkRat 85 100)]
    ∧ 1 = (([cryptoFinding.suppress "crypto_rng_present" (mkRat 85 100)] : List Finding).filter
        (fun g => g.status == some "SUPPRESSED")).length :=
  c9_amended_count_characterisation [cryptoFinding] cryptoCode
    [cryptoFinding.suppress "crypto_rng_present" (mkRat 85 100)] 1 (by decide) (by decide)

/-- C10: a finding with no `confidence` key is given the default 0.80, which
is strictly below the 0.90 fallback threshold and below every per-CWE minimum
of the default configuration (0.95 or 0.99), so the strict-threshold gate
always skips it: it is returned unchanged — an ACTIVE finding stays ACTIVE —
and no rule is evaluated (the result is the same for every rule list). -/
theorem c10_missing_confidence_never_suppressed (f : Finding) (h : f.confidence = none) :
    mkRat 80 100 < mkRat 90 100
    ∧ (∀ p ∈ get_config.safe_strict_min_thresholds, mkRat 80 100 < p.2)
    ∧ (∀ rules code, processFinding rules f code = .ok (f, false))
    ∧ (∀ code, apply_suppression [f] code = .ok [f]) := by
  have hp : ∀ rules code, processFinding rules f code = .ok (f, false) := by
    intro rules code
    apply processFinding_lowconf
    rw [h]
    exact thresholds_above_default (f.cwe_id.getD "")
  refine ⟨by decide, by decide, hp, fun code => ?_⟩
  simp [apply_suppression, applySuppressionAux, hp SuppressionEngine.rules code, Except.map]

/-- Witness for C10: a CWE-120 finding with no confidence key survives the
full engine untouched. -/
theorem c10_witness :
    processFinding SuppressionEngine.rules noConfFinding "memcpy(a, b, n);"
        = .ok (noConfFinding, false)
    ∧ apply_suppression [noConfFinding] "memcpy(a, b, n);" = .ok [noConfFinding] := by
  have h := c10_missing_confidence_never_suppressed noConfFinding rfl
  exact ⟨h.2.2.1 SuppressionEngine.rules "memcpy(a, b, n);",
         h.2.2.2 "memcpy(a, b, n);"⟩
